import Mathlib

/-!
Verification development for the order-execution engine in
`src/rust/src/order_execution/mod.rs` (tradeBotServer).

The Rust code is shallowly embedded: every operation becomes a pure Lean
function; the network is passed in as an explicit environment (a function
from the request payload to the transport outcome); hard failures
(raised Python errors) are `Except.error`, soft failures are `OrderResponse`
values with `success := false`.
-/

/-! ### Definitions: shallow embedding of the order-execution engine -/

/-- An `f64` as observed by this engine. The code never computes with a
price: it only embeds it into JSON, and the single fact that embedding
consults is whether the value is finite (`serde_json::Number::from_f64`
returns `None` for NaN and the infinities, and `json!` maps a non-finite
float to JSON null). Values are therefore abstracted to that one
observation. -/
structure F64 where
  finite : Bool

/-- JSON values as manipulated by the Rust code through serde_json.
Integral numbers written by the code are `num`; `f64`-valued numbers
(the limit price, the modify price) are `float`. -/
inductive Json where
  | null
  | bool (b : Bool)
  | num (n : Int)
  | float (x : F64)
  | str (s : String)
  | arr (elems : List Json)
  | obj (fields : List (String × Json))

/-- serde_json `Value::get(key)`: field lookup on an object, `None` otherwise. -/
def Json.get : Json → String → Option Json
  | Json.obj fields, key => fields.lookup key
  | _, _ => none

/-- serde_json `Value::as_str`. -/
def Json.as_str : Json → Option String
  | Json.str s => some s
  | _ => none

/-- serde_json `Value::as_bool`. -/
def Json.as_bool : Json → Option Bool
  | Json.bool b => some b
  | _ => none

/-- serde_json `Value::is_null`. -/
def Json.is_null : Json → Bool
  | Json.null => true
  | _ => false

/-- serde_json `Number::from_f64` wrapped into a JSON value: `some` exactly
for finite values, `none` for NaN and the infinities. -/
def numberFromF64 (x : F64) : Option Json :=
  if x.finite then some (Json.float x) else none

/-- Insert-or-replace on an association list of object fields (the effect of
serde_json `map[key] = value` as observed through `get`). -/
def insertField : List (String × Json) → String → Json → List (String × Json)
  | [], key, v => [(key, v)]
  | (k, w) :: rest, key, v =>
    if k = key then (key, v) :: rest else (k, w) :: insertField rest key v

/-- serde_json index-assignment `value[key] = v` on an object. The code only
ever indexes objects, so the non-object case leaves the value unchanged. -/
def Json.setField : Json → String → Json → Json
  | Json.obj fields, key, v => Json.obj (insertField fields key v)
  | j, _, _ => j

/-- The `OrderResponse` struct returned by every operation. -/
structure OrderResponse where
  success : Bool
  order_id : Option String
  message : Option String
  error : Option String
  raw_response : Option Json

/-- Rust `str::to_uppercase`, modelled characterwise (ASCII-faithful). -/
def strUpper (s : String) : String := ⟨s.data.map Char.toUpper⟩

/-- Rust `str::to_lowercase`, modelled characterwise (ASCII-faithful). -/
def strLower (s : String) : String := ⟨s.data.map Char.toLower⟩

/-- The executor's shared mutable state: `session_token` and
`contract_cache` (a `HashMap<String, i64>`, modelled as an association
list with insert-or-replace semantics). -/
structure ExecState where
  session_token : Option String
  contract_cache : List (String × Int)

/-- Fresh executor state (`OrderExecutor::new`). -/
def ExecState.init : ExecState :=
  { session_token := none, contract_cache := [] }

/-- `set_token`: replaces the credential. -/
def set_token (st : ExecState) (token : String) : ExecState :=
  { st with session_token := some token }

/-- `get_token`. -/
def get_token (st : ExecState) : Option String :=
  st.session_token

/-- Insert-or-replace on the contract cache (`HashMap::insert`). -/
def cacheInsert : List (String × Int) → String → Int → List (String × Int)
  | [], key, v => [(key, v)]
  | (k, w) :: rest, key, v =>
    if k = key then (key, v) :: rest else (k, w) :: cacheInsert rest key v

/-- `set_contract_id`: upserts under the uppercased symbol. -/
def set_contract_id (st : ExecState) (symbol : String) (contract_id : Int) : ExecState :=
  { st with contract_cache := cacheInsert st.contract_cache (strUpper symbol) contract_id }

/-- `get_contract_id`: looks up under the uppercased symbol. -/
def get_contract_id (st : ExecState) (symbol : String) : Option Int :=
  st.contract_cache.lookup (strUpper symbol)

/-- Substring test on character lists: `pat` occurs contiguously in the list. -/
def charsContains (pat : List Char) : List Char → Bool
  | [] => pat.isEmpty
  | c :: rest => pat.isPrefixOf (c :: rest) || charsContains pat rest

/-- Rust `str::contains(pat)`: `pat` occurs as a contiguous substring of `s`. -/
def strContainsSub (s pat : String) : Bool :=
  charsContains pat.data s.data

/-- One network attempt's outcome for the *place* endpoint, as seen by the
code after `send()` and `response.json()`: a transport error (send failed),
a body that failed to parse as JSON, or an HTTP status together with the
parsed JSON body. -/
inductive PlaceNetOutcome where
  | transportErr (e : String)
  | jsonErr (e : String)
  | ok (status : Nat) (body : Json)

/-- The loop body of `retry_on_500`, structurally recursive on
`remaining = max_retries - retries` (the source counts `retries` up and
checks `retries < max_retries`; `remaining` counts the same bound down).
`attempt` is the number of invocations already made, so the delay before
the next retry is `750 * 2 ^ attempt` ms — the source's
`750 * 2^(retries - 1)` after `retries += 1`. Returns the list of backoff
waits (in ms, in order) together with the final result. -/
def retryGo (op : Nat → Except String OrderResponse) :
    Nat → Nat → List Nat × Except String OrderResponse
  | attempt, remaining =>
    match op attempt with
    | Except.error e => ([], Except.error e)
    | Except.ok resp =>
      match resp.error with
      | some err =>
        if strContainsSub err "HTTP 500" then
          match remaining with
          | 0 => ([], Except.ok resp)
          | rem + 1 =>
            let rest := retryGo op (attempt + 1) rem
            (750 * 2 ^ attempt :: rest.1, rest.2)
        else ([], Except.ok resp)
      | none => ([], Except.ok resp)

/-- `AsyncOrderExecutor::retry_on_500`: re-invokes `op` while the returned
response's error text contains "HTTP 500" and fewer than `maxRetries`
retries have happened; `op n` is the outcome of the n-th invocation.
Returns the backoff waits and the final result. -/
def retry_on_500 (op : Nat → Except String OrderResponse) (maxRetries : Nat) :
    List Nat × Except String OrderResponse :=
  retryGo op 0 maxRetries

/-- Arguments of `place_market_order_async` (after the Python wrapper has
substituted the default order type "market"). -/
structure PlaceArgs where
  symbol : String
  side : String
  quantity : Nat
  account_id : Nat
  stop_loss_ticks : Option Int
  take_profit_ticks : Option Int
  limit_price : Option F64
  order_type : String
  custom_tag : Option String

/-- The order payload assembled by `place_market_order_internal` (lines
360-409): the `json!` base object, then the conditional
`limitPrice` / `customTag` / bracket insertions. The limit-price insertion
is `serde_json::Number::from_f64(price).unwrap()`: for a non-finite price
`from_f64` returns `None` and the `unwrap` panics, so no payload exists —
modelled as the `none` result. -/
def build_order_payload (a : PlaceArgs) (contract_id : Int) : Option Json :=
  let side_value : Int := if strUpper a.side = "BUY" then 0 else 1
  let order_type_value : Int := if strLower a.order_type = "limit" then 1 else 2
  let base := Json.obj [
    ("accountId", Json.num a.account_id),
    ("contractId", Json.num contract_id),
    ("type", Json.num order_type_value),
    ("side", Json.num side_value),
    ("size", Json.num a.quantity)]
  let d1opt := match a.limit_price with
    | some price => (numberFromF64 price).map (fun v => base.setField "limitPrice" v)
    | none => some base
  match d1opt with
  | none => none
  | some d1 =>
  let d2 := match a.custom_tag with
    | some tag => d1.setField "customTag" (Json.str tag)
    | none => d1
  if a.stop_loss_ticks.isSome || a.take_profit_ticks.isSome then
    let d3 := match a.stop_loss_ticks with
      | some ticks => d2.setField "stopLossBracket" (Json.obj [
          ("ticks", Json.num ticks),
          ("type", Json.num 4),
          ("size", Json.num a.quantity),
          ("reduceOnly", Json.bool true)])
      | none => d2
    match a.take_profit_ticks with
    | some ticks => some (d3.setField "takeProfitBracket" (Json.obj [
        ("ticks", Json.num ticks),
        ("type", Json.num 1),
        ("size", Json.num a.quantity),
        ("reduceOnly", Json.bool true)]))
    | none => some d3
  else some d2

/-- Order-id extraction (lines 469-474): the first *present* field among
`orderId`, `id`, `data.orderId`, kept only when it holds a string. -/
def extract_order_id (body : Json) : Option String :=
  (((body.get "orderId").orElse (fun _ => body.get "id")).orElse
    (fun _ => (body.get "data").bind (fun d => d.get "orderId"))).bind Json.as_str

/-- The success-flag branch of the place response interpretation
(lines 446-492): read `success` (absent or non-boolean treated as false);
on false build the `errorMessage`/`message`/`errorCode` error; on true
extract the order id and downgrade to failure when none is found. -/
def interpretSuccessCheck (body : Json) : OrderResponse :=
  let success := ((body.get "success").bind Json.as_bool).getD false
  if success then
    let order_id := extract_order_id body
    match order_id with
    | none =>
      { success := false, order_id := none, message := none,
        error := some "Order rejected: No order ID returned", raw_response := some body }
    | some _ =>
      { success := true, order_id := order_id,
        message := some "Order placed successfully", error := none,
        raw_response := some body }
  else
    let error_code := ((body.get "errorCode").bind Json.as_str).getD "Unknown"
    let error_message :=
      (((body.get "errorMessage").orElse (fun _ => body.get "message")).bind
        Json.as_str).getD "No error message"
    { success := false, order_id := none, message := none,
      error := some ("Order failed: " ++ error_message ++ " (Code: " ++ error_code ++ ")"),
      raw_response := some body }

/-- Interpretation of the parsed place response body (lines 432-492),
starting with the top-level `error` field check. -/
def interpret_place_response (body : Json) : OrderResponse :=
  match body.get "error" with
  | some e =>
    if e.is_null then interpretSuccessCheck body
    else
      { success := false, order_id := none, message := none,
        error := some (e.as_str.getD "Unknown error"), raw_response := some body }
  | none => interpretSuccessCheck body

/-- `AsyncOrderExecutor::place_market_order_internal` (lines 323-493).
`net` is the transport environment: it maps the request payload to the
outcome of the single HTTP request this function makes. Hard failures
(raised `PyErr`s) are `Except.error` carrying the message; the
`from_f64(price).unwrap()` panic on a non-finite limit price is likewise
an abort with Rust's unwrap panic message, and no network request. -/
def place_market_order_internal (st : ExecState) (a : PlaceArgs)
    (net : Json → PlaceNetOutcome) : Except String OrderResponse :=
  if strUpper a.side ≠ "BUY" ∧ strUpper a.side ≠ "SELL" then
    Except.ok
      { success := false, order_id := none, message := none,
        error := some "Side must be \x27BUY\x27 or \x27SELL\x27", raw_response := none }
  else
    match st.session_token with
    | none => Except.error "Authentication token required. Call set_token() first."
    | some _token =>
      match st.contract_cache.lookup (strUpper a.symbol) with
      | none => Except.error
          ("Contract ID not found for symbol: " ++ a.symbol ++ ". Call set_contract_id() first.")
      | some contract_id =>
        match build_order_payload a contract_id with
        | none => Except.error "called `Option::unwrap()` on a `None` value"
        | some order_data =>
          match net order_data with
          | PlaceNetOutcome.transportErr e => Except.error ("HTTP request failed: " ++ e)
          | PlaceNetOutcome.jsonErr e => Except.error ("Failed to parse response: " ++ e)
          | PlaceNetOutcome.ok _status body => Except.ok (interpret_place_response body)

/-- `AsyncOrderExecutor::place_market_order_async` (lines 297-321): the
internal place wrapped in `retry_on_500` with `max_retries = 3`. `net n`
is the transport environment seen by the n-th attempt. Returns the backoff
waits alongside the result. -/
def place_market_order_async (st : ExecState) (a : PlaceArgs)
    (net : Nat → Json → PlaceNetOutcome) : List Nat × Except String OrderResponse :=
  retry_on_500 (fun n => place_market_order_internal st a (net n)) 3

/-- An HTTP status as observed by the modify/cancel handlers: the numeric
code and its `Display` rendering (reqwest renders code plus reason phrase). -/
structure HttpStatus where
  code : Nat
  display : String

/-- reqwest `StatusCode::is_success`: code in 200..=299. -/
def statusIsSuccess (s : HttpStatus) : Bool :=
  200 ≤ s.code && s.code ≤ 299

/-- One network attempt's outcome for the modify/cancel endpoints, as seen
after `send()` and `response.text()`: a transport error, a text-read error,
or the status plus the raw body text plus the result of serde_json parsing
of that text (`none` when the text is not valid JSON). -/
inductive TextNetOutcome where
  | transportErr (e : String)
  | textErr (e : String)
  | ok (status : HttpStatus) (text : String) (parsed : Option Json)

/-- The modify request body `{orderId, price?, quantity?}` (lines 507-517).
The price goes through `serde_json::json!(p)`, which renders a non-finite
f64 as JSON null. -/
def build_modify_body (order_id : String) (price : Option F64)
    (quantity : Option Nat) : Json :=
  let base := Json.obj [("orderId", Json.str order_id)]
  let b1 := match price with
    | some p => base.setField "price" ((numberFromF64 p).getD Json.null)
    | none => base
  match quantity with
  | some q => b1.setField "quantity" (Json.num q)
  | none => b1

/-- The cancel request body `{orderId}` (lines 571-574). -/
def build_cancel_body (order_id : String) : Json :=
  Json.obj [("orderId", Json.str order_id)]

/-- `AsyncOrderExecutor::modify_order_async` (lines 495-559). -/
def modify_order_async (st : ExecState) (order_id : String) (price : Option F64)
    (quantity : Option Nat) (net : Json → TextNetOutcome) : Except String OrderResponse :=
  match st.session_token with
  | none => Except.error "Authentication token required. Call set_token() first."
  | some _token =>
    match net (build_modify_body order_id price quantity) with
    | TextNetOutcome.transportErr e => Except.error ("Failed to modify order: " ++ e)
    | TextNetOutcome.textErr e => Except.error ("Failed to read response: " ++ e)
    | TextNetOutcome.ok status text parsed =>
      if statusIsSuccess status then
        let json_response := parsed.getD (Json.obj [("message", Json.str text)])
        Except.ok
          { success := true, order_id := some order_id,
            message := some "Order modified successfully", error := none,
            raw_response := some json_response }
      else
        Except.ok
          { success := false, order_id := some order_id, message := none,
            error := some ("HTTP " ++ status.display ++ ": " ++ text), raw_response := none }

/-- `AsyncOrderExecutor::cancel_order_async` (lines 561-616). -/
def cancel_order_async (st : ExecState) (order_id : String)
    (net : Json → TextNetOutcome) : Except String OrderResponse :=
  match st.session_token with
  | none => Except.error "Authentication token required. Call set_token() first."
  | some _token =>
    match net (build_cancel_body order_id) with
    | TextNetOutcome.transportErr e => Except.error ("Failed to cancel order: " ++ e)
    | TextNetOutcome.textErr e => Except.error ("Failed to read response: " ++ e)
    | TextNetOutcome.ok status text parsed =>
      if statusIsSuccess status then
        let json_response := parsed.getD (Json.obj [("message", Json.str text)])
        Except.ok
          { success := true, order_id := some order_id,
            message := some "Order cancelled successfully", error := none,
            raw_response := some json_response }
      else
        Except.ok
          { success := false, order_id := some order_id, message := none,
            error := some ("HTTP " ++ status.display ++ ": " ++ text), raw_response := none }

/-- Concrete fixture: an executor state with a credential and a cached
contract id for "MNQ". -/
def stFix : ExecState :=
  { session_token := some "tok", contract_cache := [("MNQ", 123)] }

/-- Concrete fixture: a well-formed market BUY order for "MNQ". -/
def argsBuy : PlaceArgs :=
  { symbol := "MNQ", side := "BUY", quantity := 2, account_id := 7,
    stop_loss_ticks := none, take_profit_ticks := none, limit_price := none,
    order_type := "market", custom_tag := none }

/-- Concrete fixture: a transport environment that never matters. -/
def netNull : Json → PlaceNetOutcome := fun _ => PlaceNetOutcome.ok 200 Json.null

/-- Concrete fixture: the spec's bracket example — stop-loss 10 ticks,
no take-profit. -/
def argsBracket : PlaceArgs := { argsBuy with stop_loss_ticks := some 10 }

/-- Concrete fixture: a non-finite f64 (NaN or an infinity). -/
def priceNaN : F64 := { finite := false }

/-- Concrete fixture: a validated BUY order carrying a non-finite limit
price. -/
def argsNaN : PlaceArgs := { argsBuy with limit_price := some priceNaN }

/-- Concrete fixture: the payload built for `argsBracket` with contract id
123. -/
def payloadBracket : Json := Json.obj
  [("accountId", Json.num 7), ("contractId", Json.num 123),
   ("type", Json.num 2), ("side", Json.num 0), ("size", Json.num 2),
   ("stopLossBracket", Json.obj
     [("ticks", Json.num 10), ("type", Json.num 4),
      ("size", Json.num 2), ("reduceOnly", Json.bool true)])]

/-- Concrete fixture: upstream success with a string order id. -/
def bodyIdStr : Json := Json.obj [("success", Json.bool true), ("orderId", Json.str "ABC")]

/-- Concrete fixture: the spec's missing-id example `{"success": true}`. -/
def bodyNoId : Json := Json.obj [("success", Json.bool true)]

/-- Concrete fixture: upstream success whose `orderId` is the JSON number
12345 rather than a string. -/
def bodyIdNum : Json := Json.obj [("success", Json.bool true), ("orderId", Json.num 12345)]

/-- Concrete fixture: upstream rejection via the `error` field. -/
def bodyErrField : Json := Json.obj [("error", Json.str "bad order")]

/-- Concrete fixture: upstream rejection via `success:false` with
`errorMessage` and `errorCode`. -/
def bodyFailMsg : Json := Json.obj
  [("success", Json.bool false), ("errorMessage", Json.str "boom"),
   ("errorCode", Json.str "X1")]

/-- Concrete fixture: modify transport returning 200 with a JSON body. -/
def netM200 : Json → TextNetOutcome :=
  fun _ => TextNetOutcome.ok ⟨200, "200 OK"⟩ "\x7b\x7d" (some (Json.obj []))

/-- Concrete fixture: modify transport returning 500 with a non-JSON body. -/
def netM500 : Json → TextNetOutcome :=
  fun _ => TextNetOutcome.ok ⟨500, "500 Internal Server Error"⟩ "oops" none

/-- Concrete fixture: cancel transport returning 204 with a non-JSON body. -/
def netC204 : Json → TextNetOutcome :=
  fun _ => TextNetOutcome.ok ⟨204, "204 No Content"⟩ "done" none

/-- Concrete fixture: cancel transport returning 404 with a non-JSON body. -/
def netC404 : Json → TextNetOutcome :=
  fun _ => TextNetOutcome.ok ⟨404, "404 Not Found"⟩ "nope" none

/-- Two place-transport outcomes that differ at most in the HTTP status
code: same constructor, same error text or same parsed body. -/
def PlaceNetOutcome.sameBody : PlaceNetOutcome → PlaceNetOutcome → Prop
  | PlaceNetOutcome.transportErr e, PlaceNetOutcome.transportErr e2 => e = e2
  | PlaceNetOutcome.jsonErr e, PlaceNetOutcome.jsonErr e2 => e = e2
  | PlaceNetOutcome.ok _ b, PlaceNetOutcome.ok _ b2 => b = b2
  | _, _ => False

/-- Concrete fixture: upstream rejection whose error text contains
"HTTP 500" — the retry signature. -/
def bodyErr500 : Json := Json.obj [("error", Json.str "HTTP 500 Internal Server Error")]

/-- Concrete fixture: the spec's retry-timing scenario — a transport whose
first two attempts return the "HTTP 500" soft failure and whose third
returns a success body. -/
def netRetryTwice : Nat → Json → PlaceNetOutcome :=
  fun n _ => if n < 2 then PlaceNetOutcome.ok 500 bodyErr500
    else PlaceNetOutcome.ok 200 bodyIdStr

/-- Concrete fixture: always the success body, delivered with status 500. -/
def netStatus500 : Nat → Json → PlaceNetOutcome :=
  fun _ _ => PlaceNetOutcome.ok 500 bodyIdStr

/-- Concrete fixture: always the success body, delivered with status 200. -/
def netStatus200 : Nat → Json → PlaceNetOutcome :=
  fun _ _ => PlaceNetOutcome.ok 200 bodyIdStr

/-- Concrete fixture: the success response produced for `bodyIdStr`. -/
def respABC : OrderResponse :=
  ⟨true, some "ABC", some "Order placed successfully", none, some bodyIdStr⟩

/-! ### Helper lemmas and claim theorems -/

theorem lookup_cacheInsert_self (m : List (String × Int)) (k : String) (v : Int) :
    (cacheInsert m k v).lookup k = some v := by
  induction m with
  | nil => simp [cacheInsert, List.lookup]
  | cons p rest ih =>
    obtain ⟨k', v'⟩ := p
    by_cases h : k' = k
    · simp [cacheInsert, h, List.lookup]
    · have hb : (k == k') = false := beq_eq_false_iff_ne.mpr (Ne.symm h)
      simp [cacheInsert, h, List.lookup, hb, ih]

theorem lookup_cacheInsert_ne (m : List (String × Int)) (k k' : String) (v : Int)
    (h : k ≠ k') : (cacheInsert m k' v).lookup k = m.lookup k := by
  have hb : (k == k') = false := beq_eq_false_iff_ne.mpr h
  induction m with
  | nil => simp [cacheInsert, List.lookup, hb]
  | cons p rest ih =>
    obtain ⟨k0, v0⟩ := p
    by_cases h0 : k0 = k'
    · subst h0
      simp [cacheInsert, List.lookup, hb]
    · simp [cacheInsert, h0, List.lookup, ih]

theorem lookup_foldl_set_none (s : String) (sets : List (String × Int)) :
    ∀ st : ExecState, st.contract_cache.lookup (strUpper s) = none →
    (∀ p ∈ sets, strUpper (p.1 : String) ≠ strUpper s) →
    ((sets.foldl (fun st p => set_contract_id st p.1 p.2) st).contract_cache).lookup
      (strUpper s) = none := by
  induction sets with
  | nil => intro st hst _; simpa using hst
  | cons p rest ih =>
    intro st hst hall
    obtain ⟨sym, cid⟩ := p
    simp only [List.foldl_cons]
    apply ih
    · show (cacheInsert st.contract_cache (strUpper sym) cid).lookup (strUpper s) = none
      rw [lookup_cacheInsert_ne _ _ _ _ (fun h => (hall (sym, cid) (by simp)) h.symm)]
      exact hst
    · intro q hq
      exact hall q (by simp [hq])

/-- C8: after `set_contract_id s n`, `get_contract_id s'` returns `n` for
every `s'` with the same uppercasing as `s` (storage and lookup are both
under the uppercased symbol); `get_contract_id` on a symbol never set
(for any sequence of `set_contract_id` calls, none of which matches the
queried symbol's uppercasing) returns `none`. -/
theorem contract_cache_normalization :
    (∀ (st : ExecState) (s s' : String) (n : Int), strUpper s' = strUpper s →
      get_contract_id (set_contract_id st s n) s' = some n) ∧
    (∀ (s : String) (sets : List (String × Int)),
      (∀ p ∈ sets, strUpper (p.1 : String) ≠ strUpper s) →
      get_contract_id (sets.foldl (fun st p => set_contract_id st p.1 p.2) ExecState.init) s
        = none) := by
  constructor
  · intro st s s' n h
    show (cacheInsert st.contract_cache (strUpper s) n).lookup (strUpper s') = some n
    rw [h]
    exact lookup_cacheInsert_self _ _ _
  · intro s sets hall
    exact lookup_foldl_set_none s sets ExecState.init (by simp [ExecState.init, List.lookup]) hall

/-- Witness for C8 at the spec's own example: set "mnq" to 12345, read it
back through "MNQ"; read the never-set "ES". -/
theorem contract_cache_normalization_witness :
    get_contract_id (set_contract_id ExecState.init "mnq" 12345) "MNQ" = some 12345 ∧
    get_contract_id
      ([(("mnq" : String), (12345 : Int))].foldl
        (fun st p => set_contract_id st p.1 p.2) ExecState.init) "ES" = none :=
  ⟨contract_cache_normalization.1 ExecState.init "mnq" "MNQ" 12345 (by decide),
   contract_cache_normalization.2 "ES" [("mnq", 12345)] (by decide)⟩

/-- C2: place-order validation runs in order, before any network call:
(1) a side that is not case-insensitively "BUY"/"SELL" yields a soft-failure
`OrderResponse` (no exception); (2) otherwise a missing credential raises a
hard failure "Authentication token required..."; (3) otherwise a missing
cached contract id for the uppercased symbol raises a hard failure naming
the symbol. In each case the result is the same for every transport
environment `net`, i.e. no network request is issued. -/
theorem place_validation_precedence (st : ExecState) (a : PlaceArgs) :
    ((strUpper a.side ≠ "BUY" ∧ strUpper a.side ≠ "SELL") →
      ∀ net, place_market_order_internal st a net =
        Except.ok ⟨false, none, none, some "Side must be \x27BUY\x27 or \x27SELL\x27", none⟩) ∧
    ((strUpper a.side = "BUY" ∨ strUpper a.side = "SELL") → st.session_token = none →
      ∀ net, place_market_order_internal st a net =
        Except.error "Authentication token required. Call set_token() first.") ∧
    ((strUpper a.side = "BUY" ∨ strUpper a.side = "SELL") → st.session_token.isSome →
      st.contract_cache.lookup (strUpper a.symbol) = none →
      ∀ net, place_market_order_internal st a net =
        Except.error ("Contract ID not found for symbol: " ++ a.symbol ++
          ". Call set_contract_id() first.")) := by
  refine ⟨?_, ?_, ?_⟩
  · intro h net
    simp [place_market_order_internal, h]
  · intro h htok net
    have hcond : ¬(strUpper a.side ≠ "BUY" ∧ strUpper a.side ≠ "SELL") := by
      rcases h with h | h <;> simp [h]
    simp [place_market_order_internal, hcond, htok]
  · intro h htok hcache net
    have hcond : ¬(strUpper a.side ≠ "BUY" ∧ strUpper a.side ≠ "SELL") := by
      rcases h with h | h <;> simp [h]
    obtain ⟨tok, htok'⟩ := Option.isSome_iff_exists.mp htok
    simp [place_market_order_internal, hcond, htok', hcache]

/-- Witness for C2: side "HOLD" soft-fails; a BUY with no token raises the
auth error; a BUY with a token but an empty cache raises the contract error. -/
theorem place_validation_precedence_witness :
    place_market_order_internal ExecState.init { argsBuy with side := "HOLD" } netNull =
      Except.ok ⟨false, none, none, some "Side must be \x27BUY\x27 or \x27SELL\x27", none⟩ ∧
    place_market_order_internal ExecState.init argsBuy netNull =
      Except.error "Authentication token required. Call set_token() first." ∧
    place_market_order_internal { stFix with contract_cache := [] } argsBuy netNull =
      Except.error "Contract ID not found for symbol: MNQ. Call set_contract_id() first." :=
  ⟨(place_validation_precedence ExecState.init { argsBuy with side := "HOLD" }).1
      (by decide) netNull,
   (place_validation_precedence ExecState.init argsBuy).2.1 (by decide) rfl netNull,
   (place_validation_precedence { stFix with contract_cache := [] } argsBuy).2.2
      (by decide) (by decide) (by decide) netNull⟩

/-- C5 (amended): whenever a payload is built — which happens exactly when
the supplied limit price, if any, is finite; a non-finite limit price makes
`Number::from_f64(price).unwrap()` panic and no payload exists — it
contains accountId, contractId, type, side, size; side is 0 for BUY and 1
for SELL (case-insensitively); type is 1 for "limit" (case-insensitively)
and 2 for anything else; limitPrice and customTag appear exactly when
supplied; each bracket appears exactly when its ticks are supplied,
independently of the other, with the fixed shape
`{ticks, type, size := quantity, reduceOnly := true}` (type 4 stop-loss,
type 1 take-profit). -/
theorem payload_construction (a : PlaceArgs) (cid : Int) :
    ((∀ pr, a.limit_price = some pr → pr.finite = true) →
      (build_order_payload a cid).isSome = true) ∧
    (∀ pr, a.limit_price = some pr → pr.finite = false →
      build_order_payload a cid = none) ∧
    (∀ p, build_order_payload a cid = some p →
      p.get "accountId" = some (Json.num a.account_id) ∧
      p.get "contractId" = some (Json.num cid) ∧
      (strLower a.order_type = "limit" → p.get "type" = some (Json.num 1)) ∧
      (strLower a.order_type ≠ "limit" → p.get "type" = some (Json.num 2)) ∧
      (strUpper a.side = "BUY" → p.get "side" = some (Json.num 0)) ∧
      (strUpper a.side = "SELL" → p.get "side" = some (Json.num 1)) ∧
      p.get "size" = some (Json.num a.quantity) ∧
      p.get "limitPrice" = a.limit_price.map Json.float ∧
      p.get "customTag" = a.custom_tag.map Json.str ∧
      p.get "stopLossBracket" = a.stop_loss_ticks.map (fun t =>
        Json.obj [("ticks", Json.num t), ("type", Json.num 4),
          ("size", Json.num a.quantity), ("reduceOnly", Json.bool true)]) ∧
      p.get "takeProfitBracket" = a.take_profit_ticks.map (fun t =>
        Json.obj [("ticks", Json.num t), ("type", Json.num 1),
          ("size", Json.num a.quantity), ("reduceOnly", Json.bool true)])) := by
  refine ⟨?_, ?_, ?_⟩
  · intro hfin
    cases hlp : a.limit_price with
    | none =>
      cases hct : a.custom_tag <;> cases hsl : a.stop_loss_ticks <;>
        cases htp : a.take_profit_ticks <;>
        simp [build_order_payload, numberFromF64, hlp, hct, hsl, htp]
    | some pr =>
      have hf : pr.finite = true := hfin pr hlp
      cases hct : a.custom_tag <;> cases hsl : a.stop_loss_ticks <;>
        cases htp : a.take_profit_ticks <;>
        simp [build_order_payload, numberFromF64, hlp, hct, hsl, htp, hf]
  · intro pr hlp hf
    simp [build_order_payload, numberFromF64, hlp, hf]
  · intro p hp
    cases hlp : a.limit_price with
    | none =>
      cases hct : a.custom_tag <;> cases hsl : a.stop_loss_ticks <;>
        cases htp : a.take_profit_ticks <;>
        (simp [build_order_payload, numberFromF64, hlp, hct, hsl, htp] at hp
         subst hp
         refine ⟨?_, ?_, ?_, ?_, ?_, ?_, ?_, ?_, ?_, ?_, ?_⟩ <;>
           first
             | (intro h
                simp [Json.setField, insertField, Json.get, List.lookup,
                  hlp, hct, hsl, htp, h])
             | simp [Json.setField, insertField, Json.get, List.lookup,
                 hlp, hct, hsl, htp])
    | some pr =>
      by_cases hf : pr.finite = true
      · cases hct : a.custom_tag <;> cases hsl : a.stop_loss_ticks <;>
          cases htp : a.take_profit_ticks <;>
          (simp [build_order_payload, numberFromF64, hlp, hct, hsl, htp, hf] at hp
           subst hp
           refine ⟨?_, ?_, ?_, ?_, ?_, ?_, ?_, ?_, ?_, ?_, ?_⟩ <;>
             first
               | (intro h
                  simp [Json.setField, insertField, Json.get, List.lookup,
                    hlp, hct, hsl, htp, hf, h])
               | simp [Json.setField, insertField, Json.get, List.lookup,
                   hlp, hct, hsl, htp, hf])
      · have hf' : pr.finite = false := by
          cases hx : pr.finite <;> simp_all
        simp [build_order_payload, numberFromF64, hlp, hf'] at hp

/-- Counterexample for C5 as frozen: a validated BUY request with a
non-finite limit price builds no payload at all — the
`Number::from_f64(price).unwrap()` at lines 380-382 panics, the call
aborts before any network use — so no field of "the payload" exists for
this request. -/
theorem payload_construction_counterexample :
    build_order_payload argsNaN 123 = none ∧
    place_market_order_internal stFix argsNaN netNull =
      Except.error "called `Option::unwrap()` on a `None` value" :=
  ⟨rfl, rfl⟩

/-- Witness for C5 (amended) at the spec's bracket example (BUY market
order, `stop_loss_ticks = 10`, nothing else optional) plus the non-finite
abort branch. -/
theorem payload_construction_witness :
    (build_order_payload argsBracket 123).isSome = true ∧
    build_order_payload argsNaN 123 = none ∧
    payloadBracket.get "side" = some (Json.num 0) ∧
    payloadBracket.get "type" = some (Json.num 2) ∧
    payloadBracket.get "stopLossBracket" = some (Json.obj
      [("ticks", Json.num 10), ("type", Json.num 4),
       ("size", Json.num 2), ("reduceOnly", Json.bool true)]) ∧
    payloadBracket.get "takeProfitBracket" = none ∧
    payloadBracket.get "limitPrice" = none := by
  have h := payload_construction argsBracket 123
  have hf := h.2.2 payloadBracket rfl
  exact ⟨h.1 (by intro pr hpr; cases hpr),
    (payload_construction argsNaN 123).2.1 priceNaN rfl rfl,
    hf.2.2.2.2.1 (by decide), hf.2.2.2.1 (by decide),
    hf.2.2.2.2.2.2.2.2.2.1, hf.2.2.2.2.2.2.2.2.2.2, hf.2.2.2.2.2.2.2.1⟩

theorem interpret_no_error_field (body : Json)
    (herr : ∀ v, body.get "error" = some v → v.is_null = true) :
    interpret_place_response body = interpretSuccessCheck body := by
  unfold interpret_place_response
  cases hv : body.get "error" with
  | none => rfl
  | some e => simp [herr e hv]

theorem successCheck_extract_some (body : Json) (s : String)
    (hsucc : ((body.get "success").bind Json.as_bool).getD false = true)
    (hid : extract_order_id body = some s) :
    interpretSuccessCheck body =
      ⟨true, some s, some "Order placed successfully", none, some body⟩ := by
  unfold interpretSuccessCheck
  simp [hsucc, hid]

theorem successCheck_extract_none (body : Json)
    (hsucc : ((body.get "success").bind Json.as_bool).getD false = true)
    (hid : extract_order_id body = none) :
    interpretSuccessCheck body =
      ⟨false, none, none, some "Order rejected: No order ID returned", some body⟩ := by
  unfold interpretSuccessCheck
  simp [hsucc, hid]

/-- C4: when the place response has no (non-null) top-level `error` field
and its `success` flag reads true, the order id is extracted by checking,
in order, `orderId`, then `id`, then `data.orderId`; if one is found the
result is a success carrying it, and if none is found the result is the
structured failure "Order rejected: No order ID returned" (not a raised
error), with the full payload kept in `raw_response`. -/
theorem place_id_extraction_order (body : Json)
    (herr : ∀ v, body.get "error" = some v → v.is_null = true)
    (hsucc : ((body.get "success").bind Json.as_bool).getD false = true) :
    (∀ s, (((body.get "orderId").orElse (fun _ => body.get "id")).orElse
        (fun _ => (body.get "data").bind (fun d => d.get "orderId"))).bind Json.as_str
        = some s →
      interpret_place_response body =
        ⟨true, some s, some "Order placed successfully", none, some body⟩) ∧
    ((((body.get "orderId").orElse (fun _ => body.get "id")).orElse
        (fun _ => (body.get "data").bind (fun d => d.get "orderId"))).bind Json.as_str
        = none →
      interpret_place_response body =
        ⟨false, none, none, some "Order rejected: No order ID returned", some body⟩) := by
  constructor
  · intro s hid
    rw [interpret_no_error_field body herr]
    exact successCheck_extract_some body s hsucc hid
  · intro hid
    rw [interpret_no_error_field body herr]
    exact successCheck_extract_none body hsucc hid

/-- Witness for C4: a string `orderId` is extracted; a success body with no
id field anywhere is downgraded. -/
theorem place_id_extraction_order_witness :
    interpret_place_response bodyIdStr =
      ⟨true, some "ABC", some "Order placed successfully", none, some bodyIdStr⟩ ∧
    interpret_place_response bodyNoId =
      ⟨false, none, none, some "Order rejected: No order ID returned", some bodyNoId⟩ :=
  ⟨(place_id_extraction_order bodyIdStr
      (by intro v hv; simp [bodyIdStr, Json.get, List.lookup] at hv) rfl).1 "ABC" rfl,
   (place_id_extraction_order bodyNoId
      (by intro v hv; simp [bodyNoId, Json.get, List.lookup] at hv) rfl).2 rfl⟩

/-- C9: extraction accepts only JSON string values — if every value sitting
at `orderId`, `id` and `data.orderId` is a non-string (or the field is
absent), no identifier is found and the result is the
"Order rejected: No order ID returned" failure, even though `success` was
true upstream. -/
theorem place_id_extraction_requires_string (body : Json)
    (herr : ∀ v, body.get "error" = some v → v.is_null = true)
    (hsucc : ((body.get "success").bind Json.as_bool).getD false = true)
    (h1 : ∀ v, body.get "orderId" = some v → v.as_str = none)
    (h2 : ∀ v, body.get "id" = some v → v.as_str = none)
    (h3 : ∀ d v, body.get "data" = some d → d.get "orderId" = some v → v.as_str = none) :
    interpret_place_response body =
      ⟨false, none, none, some "Order rejected: No order ID returned", some body⟩ := by
  have hid : extract_order_id body = none := by
    unfold extract_order_id
    cases ho : body.get "orderId" with
    | some v => simp [Option.orElse, h1 v ho]
    | none =>
      cases hi : body.get "id" with
      | some v => simp [Option.orElse, h2 v hi]
      | none =>
        cases hd : body.get "data" with
        | none => simp [Option.orElse]
        | some d =>
          cases hdo : d.get "orderId" with
          | none => simp [Option.orElse, hdo]
          | some v => simp [Option.orElse, hdo, h3 d v hd hdo]
  rw [interpret_no_error_field body herr]
  exact successCheck_extract_none body hsucc hid

/-- Witness for C9: `{"success": true, "orderId": 12345}` is downgraded,
not treated as a success carrying 12345. -/
theorem place_id_extraction_requires_string_witness :
    interpret_place_response bodyIdNum =
      ⟨false, none, none, some "Order rejected: No order ID returned", some bodyIdNum⟩ :=
  place_id_extraction_requires_string bodyIdNum
    (by intro v hv; simp [bodyIdNum, Json.get, List.lookup] at hv) rfl
    (by intro v hv; simp [bodyIdNum, Json.get, List.lookup] at hv; simp [← hv, Json.as_str])
    (by intro v hv; simp [bodyIdNum, Json.get, List.lookup] at hv)
    (by intro d v hd _; simp [bodyIdNum, Json.get, List.lookup] at hd)

/-- C6: if the place response carries a non-null top-level `error` string,
the result is a failure carrying that string with the full payload as
diagnostics; otherwise, when the `success` boolean reads false (absence —
or a non-boolean — treated as false), the result is a failure whose message
is built from `errorMessage` with fallback to `message` ("No error message"
when neither is a string), annotated with `errorCode` ("Unknown" when
absent). -/
theorem place_error_interpretation (body : Json) :
    (∀ s, body.get "error" = some (Json.str s) →
      interpret_place_response body = ⟨false, none, none, some s, some body⟩) ∧
    ((∀ v, body.get "error" = some v → v.is_null = true) →
      ((body.get "success").bind Json.as_bool).getD false = false →
      interpret_place_response body =
        ⟨false, none, none,
         some ("Order failed: " ++
           ((((body.get "errorMessage").orElse (fun _ => body.get "message")).bind
             Json.as_str).getD "No error message") ++
           " (Code: " ++ ((body.get "errorCode").bind Json.as_str).getD "Unknown" ++ ")"),
         some body⟩) := by
  constructor
  · intro s hv
    unfold interpret_place_response
    rw [hv]
    simp [Json.is_null, Json.as_str]
  · intro herr hsucc
    rw [interpret_no_error_field body herr]
    unfold interpretSuccessCheck
    simp [hsucc]

/-- Witness for C6: the `error`-field branch and the
`errorMessage`/`errorCode` branch at concrete bodies. -/
theorem place_error_interpretation_witness :
    interpret_place_response bodyErrField =
      ⟨false, none, none, some "bad order", some bodyErrField⟩ ∧
    interpret_place_response bodyFailMsg =
      ⟨false, none, none, some "Order failed: boom (Code: X1)", some bodyFailMsg⟩ :=
  ⟨(place_error_interpretation bodyErrField).1 "bad order" rfl,
   (place_error_interpretation bodyFailMsg).2
      (by intro v hv; simp [bodyFailMsg, Json.get, List.lookup] at hv) rfl⟩

/-- C7: for modify and cancel calls that reach the network, the result's
success flag is true exactly when the HTTP status is 2xx, independent of
the response body; on success the body is the parsed JSON when parsing is
possible and `{message: rawBody}` otherwise; on failure the error is
exactly "HTTP {status}: {body}" and `raw_response` is not populated. -/
theorem modify_cancel_status_semantics
    (st : ExecState) (oid : String) (price : Option F64) (quantity : Option Nat)
    (netM netC : Json → TextNetOutcome)
    (sM sC : HttpStatus) (tM tC : String) (pM pC : Option Json)
    (htok : st.session_token.isSome)
    (hM : netM (build_modify_body oid price quantity) = TextNetOutcome.ok sM tM pM)
    (hC : netC (build_cancel_body oid) = TextNetOutcome.ok sC tC pC) :
    (statusIsSuccess sM = true →
      modify_order_async st oid price quantity netM =
        Except.ok ⟨true, some oid, some "Order modified successfully", none,
          some (pM.getD (Json.obj [("message", Json.str tM)]))⟩) ∧
    (statusIsSuccess sM = false →
      modify_order_async st oid price quantity netM =
        Except.ok ⟨false, some oid, none,
          some ("HTTP " ++ sM.display ++ ": " ++ tM), none⟩) ∧
    (statusIsSuccess sC = true →
      cancel_order_async st oid netC =
        Except.ok ⟨true, some oid, some "Order cancelled successfully", none,
          some (pC.getD (Json.obj [("message", Json.str tC)]))⟩) ∧
    (statusIsSuccess sC = false →
      cancel_order_async st oid netC =
        Except.ok ⟨false, some oid, none,
          some ("HTTP " ++ sC.display ++ ": " ++ tC), none⟩) := by
  obtain ⟨tok, htok'⟩ := Option.isSome_iff_exists.mp htok
  refine ⟨?_, ?_, ?_, ?_⟩ <;> intro hs <;>
    simp [modify_order_async, cancel_order_async, htok', hM, hC, hs]

/-- Witness for C7: both branches of modify and of cancel at concrete
statuses 200/500 and 204/404. -/
theorem modify_cancel_status_semantics_witness :
    modify_order_async stFix "O1" none none netM200 =
      Except.ok ⟨true, some "O1", some "Order modified successfully", none,
        some (Json.obj [])⟩ ∧
    modify_order_async stFix "O1" none none netM500 =
      Except.ok ⟨false, some "O1", none,
        some "HTTP 500 Internal Server Error: oops", none⟩ ∧
    cancel_order_async stFix "O1" netC204 =
      Except.ok ⟨true, some "O1", some "Order cancelled successfully", none,
        some (Json.obj [("message", Json.str "done")])⟩ ∧
    cancel_order_async stFix "O1" netC404 =
      Except.ok ⟨false, some "O1", none, some "HTTP 404 Not Found: nope", none⟩ := by
  refine ⟨?_, ?_, ?_, ?_⟩
  · exact (modify_cancel_status_semantics stFix "O1" none none netM200 netC204
      _ _ _ _ _ _ (by decide) rfl rfl).1 rfl
  · exact (modify_cancel_status_semantics stFix "O1" none none netM500 netC204
      _ _ _ _ _ _ (by decide) rfl rfl).2.1 rfl
  · exact (modify_cancel_status_semantics stFix "O1" none none netM200 netC204
      _ _ _ _ _ _ (by decide) rfl rfl).2.2.1 rfl
  · exact (modify_cancel_status_semantics stFix "O1" none none netM200 netC404
      _ _ _ _ _ _ (by decide) rfl rfl).2.2.2 rfl

theorem retryGo_err (op : Nat → Except String OrderResponse) (attempt remaining : Nat)
    (e : String) (hop : op attempt = Except.error e) :
    retryGo op attempt remaining = ([], Except.error e) := by
  conv_lhs => rw [retryGo]
  simp [hop]

theorem retryGo_ok_noerr (op : Nat → Except String OrderResponse) (attempt remaining : Nat)
    (resp : OrderResponse) (hop : op attempt = Except.ok resp) (herr : resp.error = none) :
    retryGo op attempt remaining = ([], Except.ok resp) := by
  conv_lhs => rw [retryGo]
  simp [hop, herr]

theorem retryGo_ok_noretry (op : Nat → Except String OrderResponse) (attempt remaining : Nat)
    (resp : OrderResponse) (err : String)
    (hop : op attempt = Except.ok resp) (herr : resp.error = some err)
    (hcon : strContainsSub err "HTTP 500" = false) :
    retryGo op attempt remaining = ([], Except.ok resp) := by
  conv_lhs => rw [retryGo]
  simp [hop, herr, hcon]

theorem retryGo_exhaust (op : Nat → Except String OrderResponse) (attempt : Nat)
    (resp : OrderResponse) (err : String)
    (hop : op attempt = Except.ok resp) (herr : resp.error = some err)
    (hcon : strContainsSub err "HTTP 500" = true) :
    retryGo op attempt 0 = ([], Except.ok resp) := by
  conv_lhs => rw [retryGo]
  simp [hop, herr, hcon]

theorem retryGo_retry (op : Nat → Except String OrderResponse) (attempt rem : Nat)
    (resp : OrderResponse) (err : String)
    (hop : op attempt = Except.ok resp) (herr : resp.error = some err)
    (hcon : strContainsSub err "HTTP 500" = true) :
    retryGo op attempt (rem + 1) =
      (750 * 2 ^ attempt :: (retryGo op (attempt + 1) rem).1,
       (retryGo op (attempt + 1) rem).2) := by
  conv_lhs => rw [retryGo]
  simp [hop, herr, hcon]

theorem retryGo_spec (op : Nat → Except String OrderResponse) :
    ∀ (remaining attempt : Nat), ∃ k, k ≤ remaining ∧
      (retryGo op attempt remaining).1 =
        (List.range k).map (fun i => 750 * 2 ^ (attempt + i)) ∧
      (retryGo op attempt remaining).2 = op (attempt + k) ∧
      (∀ i, i < k → ∃ resp, op (attempt + i) = Except.ok resp ∧
        ∃ e, resp.error = some e ∧ strContainsSub e "HTTP 500" = true) ∧
      (k < remaining → ∀ resp e, op (attempt + k) = Except.ok resp →
        resp.error = some e → strContainsSub e "HTTP 500" = false) := by
  intro remaining
  induction remaining with
  | zero =>
    intro attempt
    have hres : retryGo op attempt 0 = ([], op attempt) := by
      cases hop : op attempt with
      | error e => rw [retryGo_err op attempt 0 e hop]
      | ok resp =>
        cases herr : resp.error with
        | none => rw [retryGo_ok_noerr op attempt 0 resp hop herr]
        | some err =>
          by_cases hcon : strContainsSub err "HTTP 500" = true
          · rw [retryGo_exhaust op attempt resp err hop herr hcon]
          · rw [retryGo_ok_noretry op attempt 0 resp err hop herr
              (by cases hx : strContainsSub err "HTTP 500" <;> simp_all)]
    refine ⟨0, Nat.le_refl 0, ?_, ?_, ?_, ?_⟩
    · rw [hres]; simp
    · rw [hres, Nat.add_zero]
    · intro i hi; omega
    · intro h; omega
  | succ rem ih =>
    intro attempt
    cases hop : op attempt with
    | error e =>
      refine ⟨0, Nat.zero_le _, ?_, ?_, ?_, ?_⟩
      · rw [retryGo_err op attempt (rem + 1) e hop]; simp
      · rw [retryGo_err op attempt (rem + 1) e hop, Nat.add_zero, hop]
      · intro i hi; omega
      · intro _ resp' e' hop' _
        rw [Nat.add_zero, hop] at hop'
        cases hop'
    | ok resp =>
      cases herr : resp.error with
      | none =>
        refine ⟨0, Nat.zero_le _, ?_, ?_, ?_, ?_⟩
        · rw [retryGo_ok_noerr op attempt (rem + 1) resp hop herr]; simp
        · rw [retryGo_ok_noerr op attempt (rem + 1) resp hop herr, Nat.add_zero, hop]
        · intro i hi; omega
        · intro _ resp' e' hop' herr'
          rw [Nat.add_zero, hop] at hop'
          injection hop' with h
          subst h
          rw [herr] at herr'
          cases herr'
      | some err =>
        by_cases hcon : strContainsSub err "HTTP 500" = true
        · obtain ⟨k, hk, h1, h2, h3, h4⟩ := ih (attempt + 1)
          refine ⟨k + 1, by omega, ?_, ?_, ?_, ?_⟩
          · rw [retryGo_retry op attempt rem resp err hop herr hcon]
            simp only [h1, List.range_succ_eq_map, List.map_cons, List.map_map,
              Nat.add_zero]
            refine congrArg₂ List.cons rfl ?_
            apply List.map_congr_left
            intro i _
            simp only [Function.comp, Nat.succ_eq_add_one]
            rw [show attempt + 1 + i = attempt + (i + 1) from by omega]
          · rw [retryGo_retry op attempt rem resp err hop herr hcon]
            simp only []
            rw [h2]
            congr 1
            omega
          · intro i hi
            cases i with
            | zero => exact ⟨resp, by rwa [Nat.add_zero], err, herr, hcon⟩
            | succ j =>
              obtain ⟨resp', h', rest⟩ := h3 j (by omega)
              refine ⟨resp', ?_, rest⟩
              rw [show attempt + (j + 1) = attempt + 1 + j from by omega]
              exact h'
          · intro hlt resp' e' hop' herr'
            refine h4 (by omega) resp' e' ?_ herr'
            rw [show attempt + 1 + k = attempt + (k + 1) by omega]
            exact hop'
        · have hconf : strContainsSub err "HTTP 500" = false := by
            cases hx : strContainsSub err "HTTP 500" <;> simp_all
          refine ⟨0, Nat.zero_le _, ?_, ?_, ?_, ?_⟩
          · rw [retryGo_ok_noretry op attempt (rem + 1) resp err hop herr hconf]; simp
          · rw [retryGo_ok_noretry op attempt (rem + 1) resp err hop herr hconf,
              Nat.add_zero, hop]
          · intro i hi; omega
          · intro _ resp' e' hop' herr'
            rw [Nat.add_zero, hop] at hop'
            injection hop' with h
            subst h
            rw [herr] at herr'
            injection herr' with h2
            subst h2
            exact hconf

theorem successCheck_inv (body : Json) :
    ((interpretSuccessCheck body).success = true →
      ∃ s, (interpretSuccessCheck body).order_id = some s) ∧
    (∀ e, (interpretSuccessCheck body).error = some e →
      (interpretSuccessCheck body).success = false) := by
  unfold interpretSuccessCheck
  cases hsucc : ((body.get "success").bind Json.as_bool).getD false with
  | false => simp [hsucc]
  | true =>
    cases hid : extract_order_id body with
    | none => simp [hsucc, hid]
    | some s => simp [hsucc, hid]

theorem interpret_inv (body : Json) :
    ((interpret_place_response body).success = true →
      ∃ s, (interpret_place_response body).order_id = some s) ∧
    (∀ e, (interpret_place_response body).error = some e →
      (interpret_place_response body).success = false) := by
  cases hv : body.get "error" with
  | none =>
    rw [interpret_no_error_field body (by intro v hv2; rw [hv] at hv2; cases hv2)]
    exact successCheck_inv body
  | some e =>
    cases hnull : e.is_null with
    | true =>
      rw [interpret_no_error_field body
        (by intro v hv2; rw [hv] at hv2; injection hv2 with h; rw [← h]; exact hnull)]
      exact successCheck_inv body
    | false =>
      have hres : interpret_place_response body =
          ⟨false, none, none, some (e.as_str.getD "Unknown error"), some body⟩ := by
        unfold interpret_place_response
        rw [hv]
        simp [hnull]
      rw [hres]
      simp

theorem place_internal_inv (st : ExecState) (a : PlaceArgs) (net : Json → PlaceNetOutcome)
    (r : OrderResponse) (h : place_market_order_internal st a net = Except.ok r) :
    (r.success = true → ∃ s, r.order_id = some s) ∧
    (∀ e, r.error = some e → r.success = false) := by
  unfold place_market_order_internal at h
  by_cases hside : strUpper a.side ≠ "BUY" ∧ strUpper a.side ≠ "SELL"
  · rw [if_pos hside] at h
    injection h with h'
    subst h'
    simp
  · rw [if_neg hside] at h
    cases htok : st.session_token with
    | none => simp [htok] at h
    | some tok =>
      cases hc : st.contract_cache.lookup (strUpper a.symbol) with
      | none => simp [htok, hc] at h
      | some cid =>
        cases hb : build_order_payload a cid with
        | none => simp [htok, hc, hb] at h
        | some payload =>
          cases hn : net payload with
          | transportErr e => simp [htok, hc, hb, hn] at h
          | jsonErr e => simp [htok, hc, hb, hn] at h
          | ok stt body =>
            simp only [htok, hc, hb, hn, Except.ok.injEq] at h
            subst h
            exact interpret_inv body

theorem place_internal_side_err (st : ExecState) (a : PlaceArgs)
    (net : Json → PlaceNetOutcome)
    (hside : strUpper a.side ≠ "BUY" ∧ strUpper a.side ≠ "SELL") :
    place_market_order_internal st a net =
      Except.ok ⟨false, none, none, some "Side must be \x27BUY\x27 or \x27SELL\x27", none⟩ := by
  unfold place_market_order_internal
  rw [if_pos hside]

theorem place_internal_no_tok (st : ExecState) (a : PlaceArgs)
    (net : Json → PlaceNetOutcome)
    (hside : ¬(strUpper a.side ≠ "BUY" ∧ strUpper a.side ≠ "SELL"))
    (htok : st.session_token = none) :
    place_market_order_internal st a net =
      Except.error "Authentication token required. Call set_token() first." := by
  unfold place_market_order_internal
  rw [if_neg hside]
  simp only [htok]

theorem place_internal_no_contract (st : ExecState) (a : PlaceArgs)
    (net : Json → PlaceNetOutcome) (tok : String)
    (hside : ¬(strUpper a.side ≠ "BUY" ∧ strUpper a.side ≠ "SELL"))
    (htok : st.session_token = some tok)
    (hc : st.contract_cache.lookup (strUpper a.symbol) = none) :
    place_market_order_internal st a net =
      Except.error ("Contract ID not found for symbol: " ++ a.symbol ++
        ". Call set_contract_id() first.") := by
  unfold place_market_order_internal
  rw [if_neg hside]
  simp only [htok, hc]

theorem place_internal_payload_abort (st : ExecState) (a : PlaceArgs)
    (net : Json → PlaceNetOutcome) (tok : String) (cid : Int)
    (hside : ¬(strUpper a.side ≠ "BUY" ∧ strUpper a.side ≠ "SELL"))
    (htok : st.session_token = some tok)
    (hc : st.contract_cache.lookup (strUpper a.symbol) = some cid)
    (hb : build_order_payload a cid = none) :
    place_market_order_internal st a net =
      Except.error "called `Option::unwrap()` on a `None` value" := by
  unfold place_market_order_internal
  rw [if_neg hside]
  simp only [htok, hc, hb]

theorem place_internal_transport_err (st : ExecState) (a : PlaceArgs)
    (net : Json → PlaceNetOutcome) (tok : String) (cid : Int) (payload : Json) (e : String)
    (hside : ¬(strUpper a.side ≠ "BUY" ∧ strUpper a.side ≠ "SELL"))
    (htok : st.session_token = some tok)
    (hc : st.contract_cache.lookup (strUpper a.symbol) = some cid)
    (hb : build_order_payload a cid = some payload)
    (hn : net payload = PlaceNetOutcome.transportErr e) :
    place_market_order_internal st a net = Except.error ("HTTP request failed: " ++ e) := by
  unfold place_market_order_internal
  rw [if_neg hside]
  simp only [htok, hc, hb, hn]

theorem place_internal_json_err (st : ExecState) (a : PlaceArgs)
    (net : Json → PlaceNetOutcome) (tok : String) (cid : Int) (payload : Json) (e : String)
    (hside : ¬(strUpper a.side ≠ "BUY" ∧ strUpper a.side ≠ "SELL"))
    (htok : st.session_token = some tok)
    (hc : st.contract_cache.lookup (strUpper a.symbol) = some cid)
    (hb : build_order_payload a cid = some payload)
    (hn : net payload = PlaceNetOutcome.jsonErr e) :
    place_market_order_internal st a net = Except.error ("Failed to parse response: " ++ e) := by
  unfold place_market_order_internal
  rw [if_neg hside]
  simp only [htok, hc, hb, hn]

theorem place_internal_net_ok (st : ExecState) (a : PlaceArgs)
    (net : Json → PlaceNetOutcome) (tok : String) (cid : Int) (payload : Json)
    (stt : Nat) (body : Json)
    (hside : ¬(strUpper a.side ≠ "BUY" ∧ strUpper a.side ≠ "SELL"))
    (htok : st.session_token = some tok)
    (hc : st.contract_cache.lookup (strUpper a.symbol) = some cid)
    (hb : build_order_payload a cid = some payload)
    (hn : net payload = PlaceNetOutcome.ok stt body) :
    place_market_order_internal st a net = Except.ok (interpret_place_response body) := by
  unfold place_market_order_internal
  rw [if_neg hside]
  simp only [htok, hc, hb, hn]

theorem place_internal_status_blind (st : ExecState) (a : PlaceArgs)
    (net net2 : Json → PlaceNetOutcome)
    (hsame : ∀ p, (net p).sameBody (net2 p)) :
    place_market_order_internal st a net = place_market_order_internal st a net2 := by
  by_cases hside : strUpper a.side ≠ "BUY" ∧ strUpper a.side ≠ "SELL"
  · rw [place_internal_side_err st a net hside, place_internal_side_err st a net2 hside]
  · cases htok : st.session_token with
    | none =>
      rw [place_internal_no_tok st a net hside htok,
        place_internal_no_tok st a net2 hside htok]
    | some tok =>
      cases hc : st.contract_cache.lookup (strUpper a.symbol) with
      | none =>
        rw [place_internal_no_contract st a net tok hside htok hc,
          place_internal_no_contract st a net2 tok hside htok hc]
      | some cid =>
        cases hb : build_order_payload a cid with
        | none =>
          rw [place_internal_payload_abort st a net tok cid hside htok hc hb,
            place_internal_payload_abort st a net2 tok cid hside htok hc hb]
        | some payload =>
          have h := hsame payload
          cases hn : net payload with
          | transportErr e =>
            cases hn2 : net2 payload with
            | transportErr e2 =>
              rw [hn, hn2] at h
              simp only [PlaceNetOutcome.sameBody] at h
              subst h
              rw [place_internal_transport_err st a net tok cid payload e hside htok hc hb hn,
                place_internal_transport_err st a net2 tok cid payload e hside htok hc hb hn2]
            | jsonErr e2 => rw [hn, hn2] at h; simp [PlaceNetOutcome.sameBody] at h
            | ok s2 b2 => rw [hn, hn2] at h; simp [PlaceNetOutcome.sameBody] at h
          | jsonErr e =>
            cases hn2 : net2 payload with
            | transportErr e2 => rw [hn, hn2] at h; simp [PlaceNetOutcome.sameBody] at h
            | jsonErr e2 =>
              rw [hn, hn2] at h
              simp only [PlaceNetOutcome.sameBody] at h
              subst h
              rw [place_internal_json_err st a net tok cid payload e hside htok hc hb hn,
                place_internal_json_err st a net2 tok cid payload e hside htok hc hb hn2]
            | ok s2 b2 => rw [hn, hn2] at h; simp [PlaceNetOutcome.sameBody] at h
          | ok s b =>
            cases hn2 : net2 payload with
            | transportErr e2 => rw [hn, hn2] at h; simp [PlaceNetOutcome.sameBody] at h
            | jsonErr e2 => rw [hn, hn2] at h; simp [PlaceNetOutcome.sameBody] at h
            | ok s2 b2 =>
              rw [hn, hn2] at h
              simp only [PlaceNetOutcome.sameBody] at h
              subst h
              rw [place_internal_net_ok st a net tok cid payload s b hside htok hc hb hn,
                place_internal_net_ok st a net2 tok cid payload s2 b hside htok hc hb hn2]

theorem retryGo_congr (op op2 : Nat → Except String OrderResponse)
    (h : ∀ n, op n = op2 n) :
    ∀ remaining attempt, retryGo op attempt remaining = retryGo op2 attempt remaining := by
  intro remaining
  induction remaining with
  | zero =>
    intro attempt
    cases hop : op attempt with
    | error e =>
      rw [retryGo_err op attempt 0 e hop,
        retryGo_err op2 attempt 0 e ((h attempt).symm.trans hop)]
    | ok resp =>
      have hop2 : op2 attempt = Except.ok resp := (h attempt).symm.trans hop
      cases herr : resp.error with
      | none =>
        rw [retryGo_ok_noerr op attempt 0 resp hop herr,
          retryGo_ok_noerr op2 attempt 0 resp hop2 herr]
      | some err =>
        by_cases hcon : strContainsSub err "HTTP 500" = true
        · rw [retryGo_exhaust op attempt resp err hop herr hcon,
            retryGo_exhaust op2 attempt resp err hop2 herr hcon]
        · have hconf : strContainsSub err "HTTP 500" = false := by
            cases hx : strContainsSub err "HTTP 500" <;> simp_all
          rw [retryGo_ok_noretry op attempt 0 resp err hop herr hconf,
            retryGo_ok_noretry op2 attempt 0 resp err hop2 herr hconf]
  | succ rem ih =>
    intro attempt
    cases hop : op attempt with
    | error e =>
      rw [retryGo_err op attempt (rem + 1) e hop,
        retryGo_err op2 attempt (rem + 1) e ((h attempt).symm.trans hop)]
    | ok resp =>
      have hop2 : op2 attempt = Except.ok resp := (h attempt).symm.trans hop
      cases herr : resp.error with
      | none =>
        rw [retryGo_ok_noerr op attempt (rem + 1) resp hop herr,
          retryGo_ok_noerr op2 attempt (rem + 1) resp hop2 herr]
      | some err =>
        by_cases hcon : strContainsSub err "HTTP 500" = true
        · rw [retryGo_retry op attempt rem resp err hop herr hcon,
            retryGo_retry op2 attempt rem resp err hop2 herr hcon, ih (attempt + 1)]
        · have hconf : strContainsSub err "HTTP 500" = false := by
            cases hx : strContainsSub err "HTTP 500" <;> simp_all
          rw [retryGo_ok_noretry op attempt (rem + 1) resp err hop herr hconf,
            retryGo_ok_noretry op2 attempt (rem + 1) resp err hop2 herr hconf]

/-- C1: every place call performs at most 3 retries; the i-th backoff wait
is exactly `750 * 2 ^ i` ms (750, 1500, 3000); a retry happens only when
the attempt returned a soft failure (`success = false`) whose error text
contains "HTTP 500"; the final result is exactly the first attempt that is
a success, a soft failure without that signature, or a raised hard failure
— returned immediately — unless all 3 retries were consumed. -/
theorem place_retry_policy (st : ExecState) (a : PlaceArgs)
    (net : Nat → Json → PlaceNetOutcome) :
    ∃ k, k ≤ 3 ∧
      (place_market_order_async st a net).1 = (List.range k).map (fun i => 750 * 2 ^ i) ∧
      (place_market_order_async st a net).2 = place_market_order_internal st a (net k) ∧
      (∀ i, i < k → ∃ resp, place_market_order_internal st a (net i) = Except.ok resp ∧
        resp.success = false ∧ ∃ e, resp.error = some e ∧
        strContainsSub e "HTTP 500" = true) ∧
      (k < 3 → ∀ resp e, place_market_order_internal st a (net k) = Except.ok resp →
        resp.error = some e → strContainsSub e "HTTP 500" = false) := by
  obtain ⟨k, hk, h1, h2, h3, h4⟩ :=
    retryGo_spec (fun n => place_market_order_internal st a (net n)) 3 0
  refine ⟨k, hk, ?_, ?_, ?_, ?_⟩
  · show (retryGo (fun n => place_market_order_internal st a (net n)) 0 3).1 = _
    rw [h1]
    simp
  · show (retryGo (fun n => place_market_order_internal st a (net n)) 0 3).2 = _
    rw [h2]
    simp
  · intro i hi
    obtain ⟨resp, hri, e, he, hcon⟩ := h3 i hi
    have hri' : place_market_order_internal st a (net i) = Except.ok resp := by
      simpa using hri
    refine ⟨resp, hri', ?_, e, he, hcon⟩
    exact (place_internal_inv st a (net i) resp hri').2 e he
  · intro hk3 resp e hre herr
    exact h4 hk3 resp e (by simpa using hre) herr

/-- Witness for C1 at the spec's retry-timing scenario: two "HTTP 500"
soft failures then success produce exactly the waits [750, 1500] and end
with the third attempt's result. -/
theorem place_retry_policy_witness :
    (place_market_order_async stFix argsBuy netRetryTwice).1 = [750, 1500] ∧
    (place_market_order_async stFix argsBuy netRetryTwice).2 =
      place_market_order_internal stFix argsBuy (netRetryTwice 2) := by
  obtain ⟨k, hk, h1, h2, h3, h4⟩ := place_retry_policy stFix argsBuy netRetryTwice
  have hdelays : (place_market_order_async stFix argsBuy netRetryTwice).1 = [750, 1500] :=
    rfl
  have hlen := congrArg List.length (hdelays.symm.trans h1)
  simp at hlen
  refine ⟨hdelays, ?_⟩
  rw [h2, ← hlen]

/-- C10: the place path never consults the HTTP status code: two transport
environments whose attempts differ only in status (same bodies, same
errors) yield identical results *and identical backoff/retry behaviour*,
so a 500-status place response is a retry candidate only through its
interpreted error text. -/
theorem place_status_independent (st : ExecState) (a : PlaceArgs)
    (net net2 : Nat → Json → PlaceNetOutcome)
    (hsame : ∀ n p, (net n p).sameBody (net2 n p)) :
    place_market_order_async st a net = place_market_order_async st a net2 := by
  unfold place_market_order_async retry_on_500
  apply retryGo_congr
  intro n
  exact place_internal_status_blind st a (net n) (net2 n) (hsame n)

/-- Witness for C10: the same success body behind status 500 and status
200 gives identical outcomes. -/
theorem place_status_independent_witness :
    place_market_order_async stFix argsBuy netStatus500 =
      place_market_order_async stFix argsBuy netStatus200 :=
  place_status_independent stFix argsBuy netStatus500 netStatus200 (fun _ _ => rfl)

/-- C3: for place, modify and cancel alike, a returned `OrderResponse`
with `success = true` carries an order identifier; and for place, a body
from which no identifier can be extracted is downgraded to failure even
when the upstream marked it successful. -/
theorem success_implies_order_id :
    (∀ (st : ExecState) (a : PlaceArgs) (net : Nat → Json → PlaceNetOutcome)
      (r : OrderResponse),
      (place_market_order_async st a net).2 = Except.ok r → r.success = true →
      ∃ s, r.order_id = some s) ∧
    (∀ (st : ExecState) (oid : String) (price : Option F64) (q : Option Nat)
      (net : Json → TextNetOutcome) (r : OrderResponse),
      modify_order_async st oid price q net = Except.ok r → r.success = true →
      ∃ s, r.order_id = some s) ∧
    (∀ (st : ExecState) (oid : String) (net : Json → TextNetOutcome) (r : OrderResponse),
      cancel_order_async st oid net = Except.ok r → r.success = true →
      ∃ s, r.order_id = some s) ∧
    (∀ body : Json, extract_order_id body = none →
      (interpret_place_response body).success = false) := by
  refine ⟨?_, ?_, ?_, ?_⟩
  · intro st a net r hok hs
    obtain ⟨k, hk, h1, h2, h3, h4⟩ :=
      retryGo_spec (fun n => place_market_order_internal st a (net n)) 3 0
    have h2' : (place_market_order_async st a net).2 =
        place_market_order_internal st a (net k) := by
      show (retryGo (fun n => place_market_order_internal st a (net n)) 0 3).2 = _
      rw [h2]
      simp
    rw [h2'] at hok
    exact (place_internal_inv st a (net k) r hok).1 hs
  · intro st oid price q net r hok hs
    unfold modify_order_async at hok
    cases htok : st.session_token with
    | none => simp [htok] at hok
    | some tok =>
      cases hn : net (build_modify_body oid price q) with
      | transportErr e => simp [htok, hn] at hok
      | textErr e => simp [htok, hn] at hok
      | ok status text parsed =>
        by_cases hss : statusIsSuccess status = true
        · simp only [htok, hn, hss, if_true, Except.ok.injEq] at hok
          rw [← hok]
          exact ⟨oid, rfl⟩
        · have hss' : statusIsSuccess status = false := by
            cases hx : statusIsSuccess status <;> simp_all
          simp only [htok, hn, hss', Bool.false_eq_true, if_false,
            Except.ok.injEq] at hok
          rw [← hok] at hs
          cases hs
  · intro st oid net r hok hs
    unfold cancel_order_async at hok
    cases htok : st.session_token with
    | none => simp [htok] at hok
    | some tok =>
      cases hn : net (build_cancel_body oid) with
      | transportErr e => simp [htok, hn] at hok
      | textErr e => simp [htok, hn] at hok
      | ok status text parsed =>
        by_cases hss : statusIsSuccess status = true
        · simp only [htok, hn, hss, if_true, Except.ok.injEq] at hok
          rw [← hok]
          exact ⟨oid, rfl⟩
        · have hss' : statusIsSuccess status = false := by
            cases hx : statusIsSuccess status <;> simp_all
          simp only [htok, hn, hss', Bool.false_eq_true, if_false,
            Except.ok.injEq] at hok
          rw [← hok] at hs
          cases hs
  · intro body hid
    cases hv : body.get "error" with
    | none =>
      rw [interpret_no_error_field body (by intro v hv2; rw [hv] at hv2; cases hv2)]
      cases hsucc : ((body.get "success").bind Json.as_bool).getD false with
      | false => unfold interpretSuccessCheck; simp [hsucc]
      | true => rw [successCheck_extract_none body hsucc hid]
    | some e =>
      cases hnull : e.is_null with
      | true =>
        rw [interpret_no_error_field body
          (by intro v hv2; rw [hv] at hv2; injection hv2 with h; rw [← h]; exact hnull)]
        cases hsucc : ((body.get "success").bind Json.as_bool).getD false with
        | false => unfold interpretSuccessCheck; simp [hsucc]
        | true => rw [successCheck_extract_none body hsucc hid]
      | false =>
        have hres : interpret_place_response body =
            ⟨false, none, none, some (e.as_str.getD "Unknown error"), some body⟩ := by
          unfold interpret_place_response
          rw [hv]
          simp [hnull]
        rw [hres]

/-- Witness for C3: a concrete successful place run carries an id, and the
spec's `{"success": true}` body is downgraded. -/
theorem success_implies_order_id_witness :
    (∃ s, respABC.order_id = some s) ∧
    (interpret_place_response bodyNoId).success = false :=
  ⟨(success_implies_order_id).1 stFix argsBuy netStatus200 respABC rfl rfl,
   (success_implies_order_id).2.2.2 bodyNoId rfl⟩
